import Mathlib

/-!
Shallow embedding of the microblogging backend
(`server/api/models.py`, `server/api/routers.py`, `server/api/services.py`).

The relational store is modelled as lists of rows; each SQLAlchemy model
becomes a structure whose fields are the table's columns.  The route
handlers become pure functions from a request plus a store state to an
`Except` value: `.error` models an `HTTPException` being raised (the
surrounding transaction rolls back, so no state is returned on error),
`.ok` carries the post-commit state.
-/

/-- Row of the `users` table (`models.py`, class `User`): integer primary
key plus unique `username`, `api_key`, `email` and a display `name`. -/
structure UserRec where
  id : Nat
  username : String
  apiKey : String
  name : String
  email : String
  deriving DecidableEq, Repr

/-- Row of the `tweets` table (`models.py`, class `Tweet`): `content`,
nullable `attachment` array of link strings, author foreign key
`user_id` (NOT NULL). -/
structure TweetRec where
  id : Nat
  content : String
  attachment : Option (List String)
  userId : Nat
  deriving DecidableEq, Repr

/-- Row of the `likes` table (`models.py`, class `Like`): integer primary
key, `user_id` and `tweet_id` foreign keys, both NOT NULL.  The table
declares no unique constraint beyond the primary key. -/
structure LikeRec where
  id : Nat
  userId : Nat
  tweetId : Nat
  deriving DecidableEq, Repr

/-- Row of the `followers` table (`models.py`, class `Follow`):
`user_id` is the follower, `follower_id` the followed target (this is
the code's naming; `follow_user` inserts
`Follow(user_id=actor, follower_id=target)`).  The table declares
`UniqueConstraint("user_id", "follower_id")`. -/
structure FollowRec where
  id : Nat
  userId : Nat
  followerId : Nat
  deriving DecidableEq, Repr

/-- Row of the `media` table (`models.py`, class `Media`): `file_link`
and a nullable `tweet_id` foreign key. -/
structure MediaRec where
  id : Nat
  fileLink : String
  tweetId : Option Nat
  deriving DecidableEq, Repr

/-- The relational store: one list of rows per table, plus the
autoincrement counters backing each integer primary key. -/
structure DB where
  users : List UserRec
  tweets : List TweetRec
  likes : List LikeRec
  follows : List FollowRec
  media : List MediaRec
  nextTweetId : Nat
  nextLikeId : Nat
  nextFollowId : Nat
  nextMediaId : Nat
  deriving DecidableEq, Repr

/-- The `HTTPException`s raised by the routers, plus `integrityError`
for a store-level constraint violation surfacing during flush, and
`uploadFailed` for the 500 raised by `upload_media`. -/
inductive ApiError where
  | userNotFound
  | tweetNotFound
  | selfFollow
  | alreadyFollowing
  | notFollowing
  | alreadyLiked
  | notLiked
  | forbiddenNotOwner
  | integrityError
  | uploadFailed (cause : String)
  deriving DecidableEq, Repr

/-- HTTP status code attached to each error in the code. -/
def ApiError.status : ApiError → Nat
  | .userNotFound => 404
  | .tweetNotFound => 404
  | .selfFollow => 400
  | .alreadyFollowing => 400
  | .notFollowing => 400
  | .alreadyLiked => 400
  | .notLiked => 400
  | .forbiddenNotOwner => 403
  | .integrityError => 500
  | .uploadFailed _ => 500

/-- `services.get_user_by_id`: `select(User).where(User.id == user_id)`,
first row or a 404. -/
def get_user_by_id (userId : Nat) (db : DB) : Except ApiError UserRec :=
  match db.users.find? (fun u => u.id == userId) with
  | none => .error .userNotFound
  | some u => .ok u

/-- `routers.follow_user` (POST /api/users/{idx}/follow): resolve the
target via `get_user_by_id` (404 first), reject self-follow (400), reject
an existing `(actor, target)` row (400), otherwise insert
`Follow(user_id=actor, follower_id=target)`. -/
def follow_user (idx : Nat) (actorId : Nat) (db : DB) : Except ApiError DB :=
  match get_user_by_id idx db with
  | .error e => .error e
  | .ok follower =>
    if actorId == follower.id then .error .selfFollow
    else if db.follows.any (fun f => f.userId == actorId && f.followerId == follower.id) then
      .error .alreadyFollowing
    else
      .ok { db with
        follows := db.follows ++
          [{ id := db.nextFollowId, userId := actorId, followerId := follower.id }],
        nextFollowId := db.nextFollowId + 1 }

/-- `routers.unfollow_user` (DELETE /api/users/{idx}/follow): resolve the
target (404 first), take the first `(actor, target)` follow row, fail 400
when there is none, otherwise delete that row by primary key. -/
def unfollow_user (idx : Nat) (actorId : Nat) (db : DB) : Except ApiError DB :=
  match get_user_by_id idx db with
  | .error e => .error e
  | .ok follower =>
    match db.follows.find? (fun f => f.userId == actorId && f.followerId == follower.id) with
    | none => .error .notFollowing
    | some fl =>
      .ok { db with follows := db.follows.filter (fun f => f.id != fl.id) }

/-- `routers.like_to_tweet` (POST /api/tweets/{idx}/likes): 404 when the
tweet does not exist, 400 when a `(user, tweet)` like row already exists
(the handler never compares the tweet's author with the actor, so liking
one's own tweet passes), otherwise insert the like row. -/
def like_to_tweet (idx : Nat) (actorId : Nat) (db : DB) : Except ApiError DB :=
  match db.tweets.find? (fun t => t.id == idx) with
  | none => .error .tweetNotFound
  | some tweet =>
    if db.likes.any (fun l => l.userId == actorId && l.tweetId == tweet.id) then
      .error .alreadyLiked
    else
      .ok { db with
        likes := db.likes ++ [{ id := db.nextLikeId, userId := actorId, tweetId := tweet.id }],
        nextLikeId := db.nextLikeId + 1 }

/-- `routers.remove_like` (DELETE /api/tweets/{idx}/likes): 404 when the
tweet does not exist, 400 when the actor has no like row on it, otherwise
delete the first matching like row by primary key. -/
def remove_like (idx : Nat) (actorId : Nat) (db : DB) : Except ApiError DB :=
  match db.tweets.find? (fun t => t.id == idx) with
  | none => .error .tweetNotFound
  | some tweet =>
    match db.likes.find? (fun l => l.userId == actorId && l.tweetId == tweet.id) with
    | none => .error .notLiked
    | some lk =>
      .ok { db with likes := db.likes.filter (fun l => l.id != lk.id) }

/-- `routers.delete_own_tweet` (DELETE /api/tweets/{idx}): 404 when the
tweet does not exist, 403 when the actor is not the author.  Otherwise the
handler calls `db.delete(tweet)`.  The `Tweet`–`Like` relationship in
`models.py` declares no delete cascade, so on flush the ORM de-associates
dependent rows by nulling their foreign key; `media.tweet_id` is nullable
and is set to NULL, but `likes.tweet_id` is declared NOT NULL, so a tweet
that still has like rows makes the flush fail with an integrity error
(the transaction rolls back and nothing is deleted).  With no like rows
the tweet row itself is deleted by primary key. -/
def delete_own_tweet (idx : Nat) (actorId : Nat) (db : DB) : Except ApiError DB :=
  match db.tweets.find? (fun t => t.id == idx) with
  | none => .error .tweetNotFound
  | some tweet =>
    if tweet.userId != actorId then .error .forbiddenNotOwner
    else if db.likes.any (fun l => l.tweetId == tweet.id) then .error .integrityError
    else
      .ok { db with
        tweets := db.tweets.filter (fun t => t.id != tweet.id),
        media := db.media.map (fun m =>
          if m.tweetId == some tweet.id then { m with tweetId := none } else m) }

/-- `routers.create_new_tweet` (POST /api/tweets): insert the tweet row,
then, when `tweet_media_ids` is non-empty, select the media rows whose id
is in the supplied list, point each one's `tweet_id` at the new tweet and
denormalize their `file_link`s onto the tweet's `attachment` column.
Identifiers that match no media row are silently dropped by the
`WHERE Media.id IN (...)` select.  Returns the post-commit store together
with the created tweet row. -/
def create_new_tweet (content : String) (tweetMediaIds : Option (List Nat))
    (actorId : Nat) (db : DB) : DB × TweetRec :=
  let tid := db.nextTweetId
  let base : TweetRec := { id := tid, content := content, attachment := none, userId := actorId }
  match tweetMediaIds with
  | none =>
    ({ db with tweets := db.tweets ++ [base], nextTweetId := tid + 1 }, base)
  | some ids =>
    if ids.isEmpty then
      ({ db with tweets := db.tweets ++ [base], nextTweetId := tid + 1 }, base)
    else
      let mediaFiles := db.media.filter (fun m => ids.contains m.id)
      let tweet : TweetRec := { base with attachment := some (mediaFiles.map (fun m => m.fileLink)) }
      ({ db with
          tweets := db.tweets ++ [tweet],
          media := db.media.map (fun m =>
            if ids.contains m.id then { m with tweetId := some tid } else m),
          nextTweetId := tid + 1 }, tweet)

/-- Like count of a tweet: `func.count(Like.id)` over the like rows whose
`tweet_id` is the tweet's id. -/
def likeCount (db : DB) (tweetId : Nat) : Nat :=
  (db.likes.filter (fun l => l.tweetId == tweetId)).length

/-- The `ORDER BY count(likes.id) DESC` relation on tweet rows: a tweet
precedes another when its like count is at least as large. -/
def tlLe (db : DB) (a b : TweetRec) : Prop :=
  likeCount db b.id ≤ likeCount db a.id

instance (db : DB) : DecidableRel (tlLe db) :=
  fun _ _ => Nat.decLe _ _

instance (db : DB) : IsTotal TweetRec (tlLe db) :=
  ⟨fun _ _ => Nat.le_total _ _⟩

instance (db : DB) : IsTrans TweetRec (tlLe db) :=
  ⟨fun _ _ _ hab hbc => Nat.le_trans hbc hab⟩

/-- `routers.get_tweets_by_followings` (GET /api/tweets): collect
`Follow.follower_id` for the viewer's follow rows, select the tweets whose
author is in that set, and order by descending like count (the SQL sort
on equal counts is modelled as stable on fetch order). -/
def get_tweets_by_followings (actorId : Nat) (db : DB) : List TweetRec :=
  let followingIds := (db.follows.filter (fun f => f.userId == actorId)).map
    (fun f => f.followerId)
  let tweetsByFollowing := db.tweets.filter (fun t => followingIds.contains t.userId)
  tweetsByFollowing.insertionSort (tlLe db)

/-- User summary returned by the profile and follower queries
(`schemas.UserOut`). -/
structure UserOut where
  id : Nat
  name : String
  deriving DecidableEq, Repr

/-- `services.get_followers`: `select(User)` joined with `Follow` on
`Follow.user_id == User.id`, filtered by `Follow.follower_id == user.id` —
one joined row per (user row, follow row) pair satisfying both. -/
def get_followers (userId : Nat) (db : DB) : List UserOut :=
  (db.users.flatMap (fun u =>
    (db.follows.filter (fun f => f.userId == u.id && f.followerId == userId)).map
      (fun _ => u))).map (fun u => UserOut.mk u.id u.name)

/-- `services.get_followings`: `select(User)` joined with `Follow` on
`Follow.follower_id == User.id`, filtered by `Follow.user_id == user.id`. -/
def get_followings (userId : Nat) (db : DB) : List UserOut :=
  (db.users.flatMap (fun u =>
    (db.follows.filter (fun f => f.followerId == u.id && f.userId == userId)).map
      (fun _ => u))).map (fun u => UserOut.mk u.id u.name)

/-- Outcome of the `put_object` call inside `S3Client.upload_file_obj`:
success, a `botocore.exceptions.ClientError`, or any other exception. -/
inductive S3Outcome where
  | success
  | clientError (msg : String)
  | fatalError (msg : String)
  deriving DecidableEq, Repr

/-- `models.S3Client.upload_file_obj`: the body is wrapped in
`try ... except ClientError as e: print(...)` — a `ClientError` is caught,
logged and swallowed, so the method returns normally; any other exception
propagates to the caller. -/
def upload_file_obj (outcome : S3Outcome) : Except String Unit :=
  match outcome with
  | .success => .ok ()
  | .clientError _ => .ok ()
  | .fatalError msg => .error msg

/-- `routers.upload_media` (POST /api/medias): call
`s3_client.upload_file_obj`, build the link
`{web_url}/{bucket_name}/{unique_filename}`, insert the media row and
return its id; any exception escaping the try block becomes a 500
`uploadFailed` carrying the cause, with nothing committed. -/
def upload_media (webUrl bucketName uniqueFilename : String) (outcome : S3Outcome)
    (db : DB) : Except ApiError (DB × Nat) :=
  match upload_file_obj outcome with
  | .error e => .error (.uploadFailed e)
  | .ok _ =>
    let fileLink := webUrl ++ "/" ++ bucketName ++ "/" ++ uniqueFilename
    let mid := db.nextMediaId
    .ok ({ db with
      media := db.media ++ [{ id := mid, fileLink := fileLink, tweetId := none }],
      nextMediaId := mid + 1 }, mid)

/-- The store-level constraints actually declared in `models.py`:
primary-key uniqueness on every table's `id`, the `unique=True` columns of
`users` (`username`, `api_key`, `email`), and the single composite
`UniqueConstraint("user_id", "follower_id")` on the `followers` table.
`likes` declares nothing beyond its primary key, and no table declares a
check constraint. -/
def storeAdmissible (db : DB) : Prop :=
  (db.users.map (fun u => u.id)).Nodup ∧
  (db.users.map (fun u => u.username)).Nodup ∧
  (db.users.map (fun u => u.apiKey)).Nodup ∧
  (db.users.map (fun u => u.email)).Nodup ∧
  (db.tweets.map (fun t => t.id)).Nodup ∧
  (db.likes.map (fun l => l.id)).Nodup ∧
  (db.follows.map (fun f => f.id)).Nodup ∧
  (db.follows.map (fun f => (f.userId, f.followerId))).Nodup ∧
  (db.media.map (fun m => m.id)).Nodup

instance (db : DB) : Decidable (storeAdmissible db) := by
  unfold storeAdmissible; infer_instance

/-- The invariants the specification asks the schema to enforce: at most
one follow row per ordered pair, at most one like row per (user, tweet)
pair, and no self-follow row. -/
def claimedUniqueness (db : DB) : Prop :=
  (db.follows.map (fun f => (f.userId, f.followerId))).Nodup ∧
  (db.likes.map (fun l => (l.userId, l.tweetId))).Nodup ∧
  ∀ f ∈ db.follows, f.userId ≠ f.followerId

instance (db : DB) : Decidable (claimedUniqueness db) := by
  unfold claimedUniqueness; infer_instance

/-! ### Concrete store states used as witnesses and counterexamples -/

/-- Two users; user 2 holds two like rows on tweet 1 with distinct
primary keys — every constraint declared in `models.py` is satisfied. -/
def dbDupLike : DB :=
  { users := [{ id := 1, username := "a", apiKey := "ka", name := "A", email := "a@x" },
              { id := 2, username := "b", apiKey := "kb", name := "B", email := "b@x" }],
    tweets := [{ id := 1, content := "t1", attachment := none, userId := 1 }],
    likes := [{ id := 1, userId := 2, tweetId := 1 },
              { id := 2, userId := 2, tweetId := 1 }],
    follows := [],
    media := [],
    nextTweetId := 2, nextLikeId := 3, nextFollowId := 1, nextMediaId := 1 }

/-- One user following themselves — every constraint declared in
`models.py` is satisfied. -/
def dbSelfFollow : DB :=
  { users := [{ id := 1, username := "a", apiKey := "ka", name := "A", email := "a@x" }],
    tweets := [],
    likes := [],
    follows := [{ id := 1, userId := 1, followerId := 1 }],
    media := [],
    nextTweetId := 1, nextLikeId := 1, nextFollowId := 2, nextMediaId := 1 }

/-! ### Helper lemmas about the identity lookup -/

theorem get_user_by_id_ok {idx : Nat} {db : DB} {u : UserRec}
    (h : get_user_by_id idx db = .ok u) : u ∈ db.users ∧ u.id = idx := by
  unfold get_user_by_id at h
  cases hf : db.users.find? (fun u => u.id == idx) with
  | none => rw [hf] at h; exact absurd h (by simp)
  | some v =>
    rw [hf] at h
    cases h
    exact ⟨List.mem_of_find?_eq_some hf, by simpa using List.find?_some hf⟩

theorem get_user_by_id_of_mem {idx : Nat} {db : DB}
    (h : ∃ u ∈ db.users, u.id = idx) :
    ∃ u, get_user_by_id idx db = .ok u ∧ u ∈ db.users ∧ u.id = idx := by
  unfold get_user_by_id
  cases hf : db.users.find? (fun u => u.id == idx) with
  | none =>
    rw [List.find?_eq_none] at hf
    obtain ⟨u, hu, hid⟩ := h
    exact absurd (by simpa using hid) (hf u hu)
  | some v =>
    exact ⟨v, rfl, List.mem_of_find?_eq_some hf, by simpa using List.find?_some hf⟩

theorem get_user_by_id_none {idx : Nat} {db : DB}
    (h : ∀ u ∈ db.users, u.id ≠ idx) :
    get_user_by_id idx db = .error .userNotFound := by
  unfold get_user_by_id
  have : db.users.find? (fun u => u.id == idx) = none := by
    rw [List.find?_eq_none]
    intro u hu
    simpa using h u hu
  rw [this]

/-! ### C2 — store-level uniqueness constraints -/

/-- C2 (counterexample): the schema does not enforce all three uniqueness
invariants.  `dbDupLike` satisfies every constraint declared in
`models.py` (`storeAdmissible`) yet holds two like rows for the same
(user, tweet) pair, so admissibility does not imply the claimed
invariants. -/
theorem schema_misses_like_and_self_follow_constraints :
    ¬ (∀ db : DB, storeAdmissible db → claimedUniqueness db) := by
  intro h
  exact absurd (h dbDupLike (by decide)) (by decide)

/-- C2 (amended): of the three claimed invariants only follow-pair
uniqueness is enforced at store level (`UniqueConstraint("user_id",
"follower_id")`); an admissible state may hold duplicate (user, tweet)
like rows, and an admissible state may hold a self-follow row. -/
theorem schema_enforces_only_follow_uniqueness :
    (∀ db : DB, storeAdmissible db →
      (db.follows.map (fun f => (f.userId, f.followerId))).Nodup) ∧
    (storeAdmissible dbDupLike ∧
      ¬ (dbDupLike.likes.map (fun l => (l.userId, l.tweetId))).Nodup) ∧
    (storeAdmissible dbSelfFollow ∧
      ∃ f ∈ dbSelfFollow.follows, f.userId = f.followerId) := by
  refine ⟨fun db h => h.2.2.2.2.2.2.2.1, ⟨by decide, by decide⟩, by decide, by decide⟩

/-- C2 (witness for the amended theorem): the follow-pair uniqueness part
applied to the concrete admissible state `dbSelfFollow`. -/
theorem schema_enforces_only_follow_uniqueness_witness :
    (dbSelfFollow.follows.map (fun f => (f.userId, f.followerId))).Nodup :=
  schema_enforces_only_follow_uniqueness.1 dbSelfFollow (by decide)

/-! ### C1 — home timeline -/

/-- C1: `get_tweets_by_followings` returns exactly the tweets whose
author has a follow row from the viewer (no tweet from a non-followed
author, every tweet of every followed author), the result is ordered by
non-increasing like count, and a viewer with no follow rows receives the
empty timeline. -/
theorem get_tweets_by_followings_spec (viewer : Nat) (db : DB) :
    (∀ t, t ∈ get_tweets_by_followings viewer db ↔
      t ∈ db.tweets ∧ ∃ f ∈ db.follows, f.userId = viewer ∧ f.followerId = t.userId) ∧
    List.Sorted (fun a b => likeCount db b.id ≤ likeCount db a.id)
      (get_tweets_by_followings viewer db) ∧
    ((∀ f ∈ db.follows, f.userId ≠ viewer) → get_tweets_by_followings viewer db = []) := by
  refine ⟨fun t => ?_, ?_, fun h => ?_⟩
  · unfold get_tweets_by_followings
    rw [List.mem_insertionSort, List.mem_filter]
    simp only [List.mem_map, List.mem_filter, List.contains_iff_exists_mem_beq, beq_iff_eq,
      decide_eq_true_eq]
    constructor
    · rintro ⟨ht, _, ⟨f, ⟨hf, hview⟩, hid⟩, huid⟩
      exact ⟨ht, f, hf, hview, hid.trans huid.symm⟩
    · rintro ⟨ht, f, hf, hview, hid⟩
      exact ⟨ht, t.userId, ⟨f, ⟨hf, hview⟩, hid⟩, rfl⟩
  · exact List.sorted_insertionSort (tlLe db) _
  · have h1 : db.follows.filter (fun f => f.userId == viewer) = [] := by
      rw [List.filter_eq_nil_iff]
      intro f hf
      simpa using h f hf
    unfold get_tweets_by_followings
    rw [h1]
    simp [List.insertionSort]

/-- C1 (witness): a viewer with an empty follow set (user 2 in
`dbDupLike`, whose follows table is empty) gets the empty timeline. -/
theorem get_tweets_by_followings_spec_witness :
    get_tweets_by_followings 2 dbDupLike = [] :=
  (get_tweets_by_followings_spec 2 dbDupLike).2.2 (by decide)

/-! ### C4 — follow -/

/-- Two users and otherwise empty tables. -/
def dbTwoUsers : DB :=
  { users := [{ id := 1, username := "a", apiKey := "ka", name := "A", email := "a@x" },
              { id := 2, username := "b", apiKey := "kb", name := "B", email := "b@x" }],
    tweets := [],
    likes := [],
    follows := [],
    media := [],
    nextTweetId := 1, nextLikeId := 1, nextFollowId := 1, nextMediaId := 1 }

/-- C4: `follow_user` fails with `selfFollow` when actor and target
coincide (whatever the rest of the state; the actor row exists because the
actor is resolved from the api key), with `userNotFound` when no user has
the target id, with `alreadyFollowing` when the (actor, target) follow row
already exists, and otherwise commits a state holding the (actor, target)
follow row. -/
theorem follow_user_spec (db : DB) (actor target : Nat) :
    ((∃ u ∈ db.users, u.id = actor) → actor = target →
      follow_user target actor db = .error .selfFollow) ∧
    ((∀ u ∈ db.users, u.id ≠ target) →
      follow_user target actor db = .error .userNotFound) ∧
    ((∃ u ∈ db.users, u.id = target) → actor ≠ target →
      (∃ f ∈ db.follows, f.userId = actor ∧ f.followerId = target) →
      follow_user target actor db = .error .alreadyFollowing) ∧
    ((∃ u ∈ db.users, u.id = target) → actor ≠ target →
      (∀ f ∈ db.follows, ¬ (f.userId = actor ∧ f.followerId = target)) →
      ∃ db', follow_user target actor db = .ok db' ∧
        ∃ f ∈ db'.follows, f.userId = actor ∧ f.followerId = target) := by
  refine ⟨fun hmem heq => ?_, fun hnone => ?_, fun hmem hne hedge => ?_,
    fun hmem hne hnoedge => ?_⟩
  · subst heq
    obtain ⟨u, hok, _, hid⟩ := get_user_by_id_of_mem hmem
    unfold follow_user
    rw [hok]
    simp [hid]
  · unfold follow_user
    rw [get_user_by_id_none hnone]
  · obtain ⟨u, hok, _, hid⟩ := get_user_by_id_of_mem hmem
    unfold follow_user
    rw [hok]
    have hbeq : (actor == u.id) = false := by
      simp [hid, hne]
    have hany : (db.follows.any (fun f => f.userId == actor && f.followerId == u.id)) = true := by
      rw [List.any_eq_true]
      obtain ⟨f, hf, hfa, hft⟩ := hedge
      exact ⟨f, hf, by simp [hfa, hft, hid]⟩
    simp [hbeq, hany]
  · obtain ⟨u, hok, _, hid⟩ := get_user_by_id_of_mem hmem
    unfold follow_user
    rw [hok]
    have hbeq : (actor == u.id) = false := by
      simp [hid, hne]
    have hany : (db.follows.any (fun f => f.userId == actor && f.followerId == u.id)) = false := by
      rw [Bool.eq_false_iff]
      intro hc
      rw [List.any_eq_true] at hc
      obtain ⟨f, hf, hfp⟩ := hc
      have := hnoedge f hf
      simp [hid] at hfp
      exact this ⟨hfp.1, hfp.2⟩
    simp only [hbeq, hany, Bool.false_eq_true, if_false]
    refine ⟨_, rfl, { id := db.nextFollowId, userId := actor, followerId := u.id }, ?_, rfl, hid⟩
    simp

/-- C4 (witness): the three interesting branches exercised on
`dbTwoUsers`: self-follow, nonexistent target, and a successful follow
leaving the (1, 2) follow row in the store. -/
theorem follow_user_spec_witness :
    follow_user 1 1 dbTwoUsers = .error .selfFollow ∧
    follow_user 99 1 dbTwoUsers = .error .userNotFound ∧
    ∃ db', follow_user 2 1 dbTwoUsers = .ok db' ∧
      ∃ f ∈ db'.follows, f.userId = 1 ∧ f.followerId = 2 :=
  ⟨(follow_user_spec dbTwoUsers 1 1).1 (by decide) rfl,
   (follow_user_spec dbTwoUsers 1 99).2.1 (by decide),
   (follow_user_spec dbTwoUsers 1 2).2.2.2 (by decide) (by decide) (by decide)⟩

/-! ### C7 — unfollow and the follow/unfollow round trip -/

/-- C7: `unfollow_user` checks target existence first (`userNotFound`
regardless of the edge state), fails with `notFollowing` when the
(actor, target) follow row is absent, and a follow immediately undone by
an unfollow restores the follows table exactly (so the pair relation is
back to absent).  The freshness hypothesis on `nextFollowId` is the
autoincrement invariant of the `followers` primary key. -/
theorem unfollow_user_spec (db : DB) (actor target : Nat) :
    ((∀ u ∈ db.users, u.id ≠ target) →
      unfollow_user target actor db = .error .userNotFound) ∧
    ((∃ u ∈ db.users, u.id = target) →
      (∀ f ∈ db.follows, ¬ (f.userId = actor ∧ f.followerId = target)) →
      unfollow_user target actor db = .error .notFollowing) ∧
    (∀ db₁, (∀ f ∈ db.follows, f.id ≠ db.nextFollowId) →
      follow_user target actor db = .ok db₁ →
      ∃ db₂, unfollow_user target actor db₁ = .ok db₂ ∧ db₂.follows = db.follows) := by
  refine ⟨fun hnone => ?_, fun hmem hnoedge => ?_, fun db₁ hfresh hok => ?_⟩
  · unfold unfollow_user
    rw [get_user_by_id_none hnone]
  · obtain ⟨u, hok, _, hid⟩ := get_user_by_id_of_mem hmem
    unfold unfollow_user
    rw [hok]
    dsimp only
    have hfind : db.follows.find? (fun f => f.userId == actor && f.followerId == u.id) = none := by
      rw [List.find?_eq_none]
      intro f hf
      have := hnoedge f hf
      simp [hid]
      intro hfa
      exact fun hft => this ⟨hfa, hft⟩
    rw [hfind]
  · unfold follow_user at hok
    cases hu : get_user_by_id target db with
    | error e => rw [hu] at hok; cases hok
    | ok u =>
      rw [hu] at hok
      dsimp only at hok
      split at hok
      · cases hok
      · split at hok
        · cases hok
        · rename_i hbeq hany
          cases hok
          have hanyf : (db.follows.any
              (fun f => f.userId == actor && f.followerId == u.id)) = false :=
            Bool.eq_false_iff.mpr hany
          have hpnone : db.follows.find?
              (fun f => f.userId == actor && f.followerId == u.id) = none := by
            rw [List.find?_eq_none]
            rw [List.any_eq_false] at hanyf
            exact hanyf
          set newF : FollowRec :=
            { id := db.nextFollowId, userId := actor, followerId := u.id } with hnewF
          unfold unfollow_user
          have hu1 :
              get_user_by_id target
                { db with
                  follows := db.follows ++ [newF]
                  nextFollowId := db.nextFollowId + 1 } =
              Except.ok u := hu
          rw [hu1]
          dsimp only
          have hfind : (db.follows ++ [newF]).find?
              (fun f => f.userId == actor && f.followerId == u.id) = some newF := by
            rw [List.find?_append, hpnone]
            simp [hnewF, List.find?_cons]
          rw [hfind]
          refine ⟨_, rfl, ?_⟩
          show (db.follows ++ [newF]).filter (fun f => f.id != newF.id) = db.follows
          rw [List.filter_append]
          have h1 : db.follows.filter (fun f => f.id != newF.id) = db.follows := by
            rw [List.filter_eq_self]
            intro f hf
            simpa [hnewF] using hfresh f hf
          have h2 : ([newF] : List FollowRec).filter (fun f => f.id != newF.id) = [] := by
            simp
          rw [h1, h2, List.append_nil]

/-- State of `dbTwoUsers` after user 1 follows user 2. -/
def dbFollowed : DB :=
  { users := [{ id := 1, username := "a", apiKey := "ka", name := "A", email := "a@x" },
              { id := 2, username := "b", apiKey := "kb", name := "B", email := "b@x" }],
    tweets := [],
    likes := [],
    follows := [{ id := 1, userId := 1, followerId := 2 }],
    media := [],
    nextTweetId := 1, nextLikeId := 1, nextFollowId := 2, nextMediaId := 1 }

/-- C7 (witness): unfollowing a nonexistent target is 404, unfollowing
while not following is 400, and follow-then-unfollow from `dbTwoUsers`
restores the (empty) follows table. -/
theorem unfollow_user_spec_witness :
    unfollow_user 99 1 dbTwoUsers = .error .userNotFound ∧
    unfollow_user 2 1 dbTwoUsers = .error .notFollowing ∧
    ∃ db₂, unfollow_user 2 1 dbFollowed = .ok db₂ ∧
      db₂.follows = dbTwoUsers.follows :=
  ⟨(unfollow_user_spec dbTwoUsers 1 99).1 (by decide),
   (unfollow_user_spec dbTwoUsers 1 2).2.1 (by decide) (by decide),
   (unfollow_user_spec dbTwoUsers 1 2).2.2 dbFollowed (by decide) rfl⟩

/-! ### C5 — like and unlike -/

/-- A tweet with the requested id exists iff the lookup by id finds a
row with that id. -/
theorem tweets_find_of_mem {idx : Nat} {db : DB} (h : ∃ t ∈ db.tweets, t.id = idx) :
    ∃ t, db.tweets.find? (fun t => t.id == idx) = some t ∧ t ∈ db.tweets ∧ t.id = idx := by
  cases hf : db.tweets.find? (fun t => t.id == idx) with
  | none =>
    rw [List.find?_eq_none] at hf
    obtain ⟨t, ht, hid⟩ := h
    exact absurd (by simpa using hid) (hf t ht)
  | some t =>
    exact ⟨t, rfl, List.mem_of_find?_eq_some hf, by simpa using List.find?_some hf⟩

/-- Inversion of a successful `like_to_tweet`: the tweet was found, no
(actor, tweet) like row existed, and the post-state appends exactly one
fresh like row. -/
theorem like_to_tweet_ok_inv {db db₁ : DB} {actor tid : Nat}
    (hok : like_to_tweet tid actor db = .ok db₁) :
    ∃ tw, db.tweets.find? (fun t => t.id == tid) = some tw ∧
      (db.likes.any (fun l => l.userId == actor && l.tweetId == tw.id)) = false ∧
      db₁ = { db with
        likes := db.likes ++ [{ id := db.nextLikeId, userId := actor, tweetId := tw.id }],
        nextLikeId := db.nextLikeId + 1 } := by
  unfold like_to_tweet at hok
  cases ht : db.tweets.find? (fun t => t.id == tid) with
  | none => rw [ht] at hok; cases hok
  | some tw =>
    rw [ht] at hok
    dsimp only at hok
    split at hok
    · cases hok
    · rename_i hany
      cases hok
      exact ⟨tw, rfl, Bool.eq_false_iff.mpr hany, rfl⟩

/-- C5: both like and unlike are 404 when the tweet does not exist;
liking twice fails with `alreadyLiked` on the second attempt; liking
one's own tweet is permitted; unliking without a like row fails with
`notLiked`, and in particular a like followed by two unlikes fails with
`notLiked` on the second unlike.  The freshness hypothesis on
`nextLikeId` is the autoincrement invariant of the `likes` primary
key. -/
theorem like_unlike_spec (db : DB) (actor tid : Nat) :
    ((∀ tw ∈ db.tweets, tw.id ≠ tid) →
      like_to_tweet tid actor db = .error .tweetNotFound ∧
      remove_like tid actor db = .error .tweetNotFound) ∧
    (∀ db₁, like_to_tweet tid actor db = .ok db₁ →
      like_to_tweet tid actor db₁ = .error .alreadyLiked) ∧
    ((∃ tw ∈ db.tweets, tw.id = tid ∧ tw.userId = actor) →
      (∀ l ∈ db.likes, ¬ (l.userId = actor ∧ l.tweetId = tid)) →
      ∃ db', like_to_tweet tid actor db = .ok db') ∧
    ((∃ tw ∈ db.tweets, tw.id = tid) →
      (∀ l ∈ db.likes, ¬ (l.userId = actor ∧ l.tweetId = tid)) →
      remove_like tid actor db = .error .notLiked) ∧
    (∀ db₁, (∀ l ∈ db.likes, l.id ≠ db.nextLikeId) →
      like_to_tweet tid actor db = .ok db₁ →
      ∃ db₂, remove_like tid actor db₁ = .ok db₂ ∧
        remove_like tid actor db₂ = .error .notLiked) := by
  have hnone : (∀ tw ∈ db.tweets, tw.id ≠ tid) →
      db.tweets.find? (fun t => t.id == tid) = none := by
    intro h
    rw [List.find?_eq_none]
    intro t ht
    simpa using h t ht
  have hfindnone : (∀ l ∈ db.likes, ¬ (l.userId = actor ∧ l.tweetId = tid)) →
      ∀ tw : TweetRec, tw.id = tid →
      db.likes.find? (fun l => l.userId == actor && l.tweetId == tw.id) = none := by
    intro h tw htw
    rw [List.find?_eq_none]
    intro l hl
    have := h l hl
    simp [htw]
    intro hla
    exact fun hlt => this ⟨hla, hlt⟩
  refine ⟨fun h => ?_, fun db₁ hok => ?_, fun hmem hnolike => ?_,
    fun hmem hnolike => ?_, fun db₁ hfresh hok => ?_⟩
  · constructor
    · unfold like_to_tweet
      rw [hnone h]
    · unfold remove_like
      rw [hnone h]
  · obtain ⟨tw, ht, hany, rfl⟩ := like_to_tweet_ok_inv hok
    unfold like_to_tweet
    have ht1 :
        ({ db with
          likes := db.likes ++ [({ id := db.nextLikeId, userId := actor, tweetId := tw.id } : LikeRec)]
          nextLikeId := db.nextLikeId + 1 } : DB).tweets.find? (fun t => t.id == tid) =
        some tw := ht
    rw [ht1]
    dsimp only
    have hany1 : ((db.likes ++
        [({ id := db.nextLikeId, userId := actor, tweetId := tw.id } : LikeRec)]).any
          (fun l => l.userId == actor && l.tweetId == tw.id)) = true := by
      simp
    rw [hany1]
    rfl
  · obtain ⟨tw0, htw0, htid0, _⟩ := hmem
    obtain ⟨tw, hfind, _, htid⟩ := tweets_find_of_mem ⟨tw0, htw0, htid0⟩
    unfold like_to_tweet
    rw [hfind]
    dsimp only
    have hany : (db.likes.any (fun l => l.userId == actor && l.tweetId == tw.id)) = false := by
      rw [List.any_eq_false]
      intro l hl
      have := hnolike l hl
      simp [htid]
      intro hla
      exact fun hlt => this ⟨hla, hlt⟩
    rw [hany]
    exact ⟨_, rfl⟩
  · obtain ⟨tw, hfind, _, htid⟩ := tweets_find_of_mem hmem
    unfold remove_like
    rw [hfind]
    dsimp only
    rw [hfindnone hnolike tw htid]
  · obtain ⟨tw, ht, hany, rfl⟩ := like_to_tweet_ok_inv hok
    set newL : LikeRec := { id := db.nextLikeId, userId := actor, tweetId := tw.id } with hnewL
    have hpnone : db.likes.find? (fun l => l.userId == actor && l.tweetId == tw.id) = none := by
      rw [List.find?_eq_none]
      rw [List.any_eq_false] at hany
      exact hany
    have hfilter : (db.likes ++ [newL]).filter (fun l => l.id != newL.id) = db.likes := by
      rw [List.filter_append]
      have h1 : db.likes.filter (fun l => l.id != newL.id) = db.likes := by
        rw [List.filter_eq_self]
        intro l hl
        simpa [hnewL] using hfresh l hl
      have h2 : ([newL] : List LikeRec).filter (fun l => l.id != newL.id) = [] := by
        simp
      rw [h1, h2, List.append_nil]
    have hstep1 : remove_like tid actor
        { db with
          likes := db.likes ++ [newL]
          nextLikeId := db.nextLikeId + 1 } =
        .ok { db with
          likes := db.likes
          nextLikeId := db.nextLikeId + 1 } := by
      unfold remove_like
      have ht1 :
          ({ db with
            likes := db.likes ++ [newL]
            nextLikeId := db.nextLikeId + 1 } : DB).tweets.find? (fun t => t.id == tid) =
          some tw := ht
      rw [ht1]
      dsimp only
      have hfind2 : (db.likes ++ [newL]).find?
          (fun l => l.userId == actor && l.tweetId == tw.id) = some newL := by
        rw [List.find?_append, hpnone]
        simp [hnewL]
      rw [hfind2]
      dsimp only
      rw [hfilter]
    have hstep2 : remove_like tid actor
        { db with
          likes := db.likes
          nextLikeId := db.nextLikeId + 1 } = .error .notLiked := by
      unfold remove_like
      have ht2 :
          ({ db with
            likes := db.likes
            nextLikeId := db.nextLikeId + 1 } : DB).tweets.find? (fun t => t.id == tid) =
          some tw := ht
      rw [ht2]
      dsimp only
      rw [hpnone]
    exact ⟨_, hstep1, hstep2⟩

/-- One user with one tweet of their own and no likes. -/
def dbOwnTweet : DB :=
  { users := [{ id := 1, username := "a", apiKey := "ka", name := "A", email := "a@x" }],
    tweets := [{ id := 1, content := "t", attachment := none, userId := 1 }],
    likes := [],
    follows := [],
    media := [],
    nextTweetId := 2, nextLikeId := 1, nextFollowId := 1, nextMediaId := 1 }

/-- State of `dbOwnTweet` after user 1 likes their tweet 1. -/
def dbOwnTweetLiked : DB :=
  { users := [{ id := 1, username := "a", apiKey := "ka", name := "A", email := "a@x" }],
    tweets := [{ id := 1, content := "t", attachment := none, userId := 1 }],
    likes := [{ id := 1, userId := 1, tweetId := 1 }],
    follows := [],
    media := [],
    nextTweetId := 2, nextLikeId := 2, nextFollowId := 1, nextMediaId := 1 }

/-- C5 (witness): all five branches exercised on `dbOwnTweet` — liking a
missing tweet, double-liking, liking one's own tweet, unliking without a
like, and the like/unlike/unlike chain. -/
theorem like_unlike_spec_witness :
    like_to_tweet 9 1 dbOwnTweet = .error .tweetNotFound ∧
    like_to_tweet 1 1 dbOwnTweetLiked = .error .alreadyLiked ∧
    (∃ db', like_to_tweet 1 1 dbOwnTweet = .ok db') ∧
    remove_like 1 1 dbOwnTweet = .error .notLiked ∧
    ∃ db₂, remove_like 1 1 dbOwnTweetLiked = .ok db₂ ∧
      remove_like 1 1 db₂ = .error .notLiked :=
  ⟨((like_unlike_spec dbOwnTweet 1 9).1 (by decide)).1,
   (like_unlike_spec dbOwnTweet 1 1).2.1 dbOwnTweetLiked rfl,
   (like_unlike_spec dbOwnTweet 1 1).2.2.1 (by decide) (by decide),
   (like_unlike_spec dbOwnTweet 1 1).2.2.2.1 (by decide) (by decide),
   (like_unlike_spec dbOwnTweet 1 1).2.2.2.2 dbOwnTweetLiked (by decide) rfl⟩

/-! ### C3 — tweet deletion -/

/-- C3: `delete_own_tweet` evaluated on concrete states.  On
`dbOwnTweetLiked` (tweet 1 by user 1, one like row on it) deleting the
tweet as its author does not remove the tweet and its like edges as the
specification requires: with no cascade declared and `likes.tweet_id`
NOT NULL the flush fails, surfacing a 500 integrity error.  The 404
branch, the 403 branch and deletion of a like-free tweet (after which the
fetch is 404) behave as specified. -/
theorem delete_own_tweet_eval :
    delete_own_tweet 1 1 dbOwnTweetLiked = .error .integrityError ∧
    ApiError.integrityError.status = 500 ∧
    delete_own_tweet 1 2 dbOwnTweetLiked = .error .forbiddenNotOwner ∧
    delete_own_tweet 9 1 dbOwnTweetLiked = .error .tweetNotFound ∧
    ∃ db', delete_own_tweet 1 1 dbOwnTweet = .ok db' ∧
      delete_own_tweet 1 1 db' = .error .tweetNotFound :=
  ⟨rfl, rfl, rfl, rfl, _, rfl, rfl⟩

/-! ### C9 — media upload failure handling -/

/-- C9 (counterexample): when the storage call fails with a
`ClientError`, `upload_file_obj` swallows the exception, so
`upload_media` does not surface a 500 — it succeeds and commits a media
row for the failed upload. -/
theorem upload_media_swallows_client_error :
    ∃ p : DB × Nat,
      upload_media "W" "B" "f.jpg" (.clientError "boom") dbTwoUsers = .ok p ∧
      p.1.media ≠ [] :=
  ⟨_, rfl, by decide⟩

/-- C9 (amended): only a storage failure other than `ClientError`
escapes `upload_file_obj`; it surfaces as a 500 carrying the cause and no
media row is committed (the error return carries no state).  A
`ClientError` failure is logged and swallowed, and `upload_media`
commits a media row with the computed link as if the upload had
succeeded. -/
theorem upload_media_error_spec (webUrl bucketName fname msg : String) (db : DB) :
    upload_media webUrl bucketName fname (.fatalError msg) db =
      .error (.uploadFailed msg) ∧
    (ApiError.uploadFailed msg).status = 500 ∧
    ∃ db', upload_media webUrl bucketName fname (.clientError msg) db =
      .ok (db', db.nextMediaId) ∧
      db'.media = db.media ++
        [{ id := db.nextMediaId,
           fileLink := webUrl ++ "/" ++ bucketName ++ "/" ++ fname,
           tweetId := none }] :=
  ⟨rfl, rfl, _, rfl, rfl⟩

/-! ### C8 — follower and following queries -/

/-- C8: `get_followers user` returns exactly the summaries of the users
X having a follow row (X follows user) — stored as
`(user_id = X, follower_id = user)` — and `get_followings user` exactly
the summaries of the users Y having a follow row (user follows Y) —
stored as `(user_id = user, follower_id = Y)`: the two queries traverse
the stored edge in opposite directions. -/
theorem followers_followings_spec (v : Nat) (db : DB) :
    (∀ uo, uo ∈ get_followers v db ↔
      ∃ u ∈ db.users, (∃ f ∈ db.follows, f.userId = u.id ∧ f.followerId = v) ∧
        uo = UserOut.mk u.id u.name) ∧
    (∀ uo, uo ∈ get_followings v db ↔
      ∃ u ∈ db.users, (∃ f ∈ db.follows, f.userId = v ∧ f.followerId = u.id) ∧
        uo = UserOut.mk u.id u.name) := by
  constructor
  · intro uo
    unfold get_followers
    simp only [List.mem_map, List.mem_flatMap, List.mem_filter, Bool.and_eq_true,
      beq_iff_eq]
    constructor
    · rintro ⟨x, ⟨u, hu, f, ⟨hf, hfu, hfv⟩, hux⟩, hout⟩
      subst hux
      exact ⟨u, hu, ⟨f, hf, hfu, hfv⟩, hout.symm⟩
    · rintro ⟨u, hu, ⟨f, hf, hfu, hfv⟩, hout⟩
      exact ⟨u, ⟨u, hu, f, ⟨hf, hfu, hfv⟩, rfl⟩, hout.symm⟩
  · intro uo
    unfold get_followings
    simp only [List.mem_map, List.mem_flatMap, List.mem_filter, Bool.and_eq_true,
      beq_iff_eq]
    constructor
    · rintro ⟨x, ⟨u, hu, f, ⟨hf, hfy, hfv⟩, hux⟩, hout⟩
      subst hux
      exact ⟨u, hu, ⟨f, hf, hfv, hfy⟩, hout.symm⟩
    · rintro ⟨u, hu, ⟨f, hf, hfu, hfv⟩, hout⟩
      exact ⟨u, ⟨u, hu, f, ⟨hf, hfv, hfu⟩, rfl⟩, hout.symm⟩

/-! ### C6 — attachment resolution on tweet creation -/

/-- C6: the created tweet's attachment list holds exactly the stored
links of the supplied identifiers that resolve to a media row;
non-resolving identifiers are dropped without failing the create (the
operation is total), so a list of only nonexistent ids yields a committed
tweet with an empty attachment list, and creating with one freshly
uploaded media id yields exactly that media's stored link.  The freshness
hypothesis on `nextMediaId` is the autoincrement invariant of the
`media` primary key. -/
theorem create_new_tweet_attachments_spec (db : DB) (content : String)
    (ids : List Nat) (actor : Nat) :
    (ids ≠ [] →
      ∀ link, link ∈ ((create_new_tweet content (some ids) actor db).2.attachment.getD []) ↔
        ∃ m ∈ db.media, m.id ∈ ids ∧ m.fileLink = link) ∧
    (ids ≠ [] → (∀ m ∈ db.media, m.id ∉ ids) →
      (create_new_tweet content (some ids) actor db).2.attachment = some [] ∧
      (create_new_tweet content (some ids) actor db).2 ∈
        (create_new_tweet content (some ids) actor db).1.tweets) ∧
    (∀ webUrl bucketName fname db₁ mid,
      (∀ m ∈ db.media, m.id ≠ db.nextMediaId) →
      upload_media webUrl bucketName fname .success db = .ok (db₁, mid) →
      (create_new_tweet content (some [mid]) actor db₁).2.attachment =
        some [webUrl ++ "/" ++ bucketName ++ "/" ++ fname]) := by
  refine ⟨fun hne link => ?_, fun hne hnores => ?_, fun webUrl bucketName fname db₁ mid hfresh hok => ?_⟩
  · have hie : ids.isEmpty = false := by
      cases ids with
      | nil => exact absurd rfl hne
      | cons a l => rfl
    simp only [create_new_tweet, hie, Bool.false_eq_true, if_false, Option.getD_some,
      List.mem_map, List.mem_filter]
    constructor
    · rintro ⟨m, ⟨hm, hc⟩, hlink⟩
      exact ⟨m, hm, by simpa using hc, hlink⟩
    · rintro ⟨m, hm, hc, hlink⟩
      exact ⟨m, ⟨hm, by simpa using hc⟩, hlink⟩
  · have hie : ids.isEmpty = false := by
      cases ids with
      | nil => exact absurd rfl hne
      | cons a l => rfl
    have hfe : db.media.filter (fun m => ids.contains m.id) = [] := by
      rw [List.filter_eq_nil_iff]
      intro m hm
      simpa using hnores m hm
    simp only [create_new_tweet, hie, Bool.false_eq_true, if_false]
    rw [hfe]
    exact ⟨rfl, by simp⟩
  · unfold upload_media at hok
    dsimp only at hok
    cases hok
    set newM : MediaRec :=
      { id := db.nextMediaId,
        fileLink := webUrl ++ "/" ++ bucketName ++ "/" ++ fname,
        tweetId := none } with hnewM
    have hie : ([db.nextMediaId] : List Nat).isEmpty = false := rfl
    simp only [create_new_tweet, hie, Bool.false_eq_true, if_false]
    have hfe : (db.media ++ [newM]).filter
        (fun m => [db.nextMediaId].contains m.id) = [newM] := by
      rw [List.filter_append]
      have h1 : db.media.filter (fun m => [db.nextMediaId].contains m.id) = [] := by
        rw [List.filter_eq_nil_iff]
        intro m hm
        simpa using hfresh m hm
      have h2 : ([newM] : List MediaRec).filter
          (fun m => [db.nextMediaId].contains m.id) = [newM] := by
        simp [hnewM]
      rw [h1, h2, List.nil_append]
    rw [hfe]
    simp [hnewM]

/-- One user and one unattached media row. -/
def dbWithMedia : DB :=
  { users := [{ id := 1, username := "a", apiKey := "ka", name := "A", email := "a@x" }],
    tweets := [],
    likes := [],
    follows := [],
    media := [{ id := 1, fileLink := "W/B/f.jpg", tweetId := none }],
    nextTweetId := 1, nextLikeId := 1, nextFollowId := 1, nextMediaId := 2 }

/-- State of `dbOwnTweet` after uploading `g.png` (media row 1, link
`W/B/g.png`, not yet attached). -/
def dbOwnTweetUploaded : DB :=
  { users := [{ id := 1, username := "a", apiKey := "ka", name := "A", email := "a@x" }],
    tweets := [{ id := 1, content := "t", attachment := none, userId := 1 }],
    likes := [],
    follows := [],
    media := [{ id := 1, fileLink := "W/B/g.png", tweetId := none }],
    nextTweetId := 2, nextLikeId := 1, nextFollowId := 1, nextMediaId := 2 }

/-- C6 (witness): on `dbWithMedia`, resolving ids `[1, 5]` puts exactly
link `W/B/f.jpg` in the attachment list, only-nonexistent ids `[7]` give
an empty attachment list on a committed tweet, and uploading to
`dbOwnTweet` then attaching the returned id stores exactly the uploaded
link. -/
theorem create_new_tweet_attachments_spec_witness :
    ("W/B/f.jpg" ∈ ((create_new_tweet "c" (some [1, 5]) 1 dbWithMedia).2.attachment.getD []) ↔
      ∃ m ∈ dbWithMedia.media, m.id ∈ [1, 5] ∧ m.fileLink = "W/B/f.jpg") ∧
    (create_new_tweet "c" (some [7]) 1 dbWithMedia).2.attachment = some [] ∧
    (create_new_tweet "c" (some [1]) 1 dbOwnTweetUploaded).2.attachment =
      some ["W/B/g.png"] :=
  ⟨(create_new_tweet_attachments_spec dbWithMedia "c" [1, 5] 1).1 (by decide) "W/B/f.jpg",
   ((create_new_tweet_attachments_spec dbWithMedia "c" [7] 1).2.1 (by decide) (by decide)).1,
   (create_new_tweet_attachments_spec dbOwnTweet "c" [1] 1).2.2 "W" "B" "g.png"
     dbOwnTweetUploaded 1 (by decide) rfl⟩

/-! ### C10 — no ownership or already-attached check on media ids -/

/-- C10: `create_new_tweet` never checks who uploaded a media row or
whether it is already attached: supplying the id of a media row already
attached to an earlier tweet succeeds, repoints that row's `tweet_id` at
the new tweet, puts its link into the new tweet's attachment list, and
leaves the earlier tweet's denormalized attachment list untouched — the
same link then appears in both tweets' attachment lists. -/
theorem create_new_tweet_no_ownership_check (db : DB) (content : String)
    (ids : List Nat) (actor : Nat) (m : MediaRec) (told : TweetRec)
    (hm : m ∈ db.media) (hin : m.id ∈ ids)
    (htold : told ∈ db.tweets) (hlink : m.fileLink ∈ told.attachment.getD []) :
    { m with tweetId := some (create_new_tweet content (some ids) actor db).2.id } ∈
      (create_new_tweet content (some ids) actor db).1.media ∧
    m.fileLink ∈ (create_new_tweet content (some ids) actor db).2.attachment.getD [] ∧
    (create_new_tweet content (some ids) actor db).2 ∈
      (create_new_tweet content (some ids) actor db).1.tweets ∧
    told ∈ (create_new_tweet content (some ids) actor db).1.tweets ∧
    m.fileLink ∈ told.attachment.getD [] := by
  have hne : ids ≠ [] := List.ne_nil_of_mem hin
  have hie : ids.isEmpty = false := by
    cases ids with
    | nil => exact absurd rfl hne
    | cons a l => rfl
  have hc : ids.contains m.id = true := by simpa using hin
  simp only [create_new_tweet, hie, Bool.false_eq_true, if_false]
  refine ⟨?_, ?_, ?_, ?_, hlink⟩
  · have hmem := List.mem_map_of_mem
      (fun mm => if ids.contains mm.id = true then
        { mm with tweetId := some db.nextTweetId } else mm) hm
    simpa [hc, hin] using hmem
  · simp only [Option.getD_some, List.mem_map]
    exact ⟨m, List.mem_filter.mpr ⟨hm, by simpa using hc⟩, rfl⟩
  · simp
  · simp [htold]

/-- One user, one tweet with an attached media file whose link is
denormalized onto the tweet. -/
def dbAttached : DB :=
  { users := [{ id := 1, username := "a", apiKey := "ka", name := "A", email := "a@x" }],
    tweets := [{ id := 1, content := "t", attachment := some ["W/B/f.jpg"], userId := 1 }],
    likes := [],
    follows := [],
    media := [{ id := 1, fileLink := "W/B/f.jpg", tweetId := some 1 }],
    nextTweetId := 2, nextLikeId := 1, nextFollowId := 1, nextMediaId := 2 }

/-- C10 (witness): reusing `dbAttached`'s already-attached media row 1 in
a second tweet: the row is repointed at tweet 2, and link `W/B/f.jpg`
appears in both tweet 2's and tweet 1's attachment lists. -/
theorem create_new_tweet_no_ownership_check_witness :
    ({ id := 1, fileLink := "W/B/f.jpg", tweetId := some 2 } : MediaRec) ∈
      (create_new_tweet "c2" (some [1]) 1 dbAttached).1.media ∧
    "W/B/f.jpg" ∈ (create_new_tweet "c2" (some [1]) 1 dbAttached).2.attachment.getD [] ∧
    (create_new_tweet "c2" (some [1]) 1 dbAttached).2 ∈
      (create_new_tweet "c2" (some [1]) 1 dbAttached).1.tweets ∧
    ({ id := 1, content := "t", attachment := some ["W/B/f.jpg"], userId := 1 } : TweetRec) ∈
      (create_new_tweet "c2" (some [1]) 1 dbAttached).1.tweets ∧
    "W/B/f.jpg" ∈
      (({ id := 1, content := "t", attachment := some ["W/B/f.jpg"], userId := 1 } :
        TweetRec)).attachment.getD [] :=
  create_new_tweet_no_ownership_check dbAttached "c2" [1] 1
    { id := 1, fileLink := "W/B/f.jpg", tweetId := some 1 }
    { id := 1, content := "t", attachment := some ["W/B/f.jpg"], userId := 1 }
    (by decide) (by decide) (by decide) (by decide)
